import Mathlib

/-!
Shallow embedding of the `gotype-ish` driver and import resolver.

The repository has two Go source files:

* `gotype2.go` — the Driver: `report` (the Diagnostic Filter), `getPkgFiles`
  (unit determination), `checkPkgFiles` (orchestration) and `main`.
* `importer.go` — the two-tier Import Resolver: `Import` (fast path only)
  and `ImportFrom` (cache, fast path, slow-path fallback).

External collaborators (the compiled-package importer `mainImporter`, the
source-discovery facility `go/build`, the parser `parseFiles` — referenced by
`importer.go` but not part of `src/` — and the type engine `types.Config.Check`)
are modelled as oracle functions gathered in an environment record; the control
flow of the repository's own functions is translated statement by statement.
-/

namespace Gotype

/-- A resolved typed package handle (`*types.Package` is opaque here; only its
identity matters). A Go package pointer may be `nil`, so cache values and
results use `Option Pkg`. -/
structure Pkg where
  id : Nat
  deriving DecidableEq, Repr

/-- A parsed source file (`*ast.File`), opaque. -/
structure AstFile where
  fileId : Nat
  deriving DecidableEq, Repr

/-- The result of `build.Default.Import`: the package directory and its file
lists (`GoFiles`, `CgoFiles`). -/
structure BuildPkg where
  dir : String
  goFiles : List String
  cgoFiles : List String
  deriving DecidableEq, Repr

/-- Events recording which external collaborators a resolver call invoked,
used to state "no additional I/O" properties. -/
inductive Ev where
  | fastImport (path : String)
  | fastFrom (path dir : String) (mode : Nat)
  | buildFind (path dir : String)
  | parseSrc (dir : String) (filenames : List String)
  | typeCheck (path : String)
  deriving DecidableEq, Repr

/-- The Resolution Cache `i.packages : map[string]*types.Package`. A Go map
lookup distinguishes "absent" from "present with nil value", hence
`Option (Option Pkg)`. -/
def Cache : Type := String → Option (Option Pkg)

/-- The empty cache. -/
def emptyCache : Cache := fun _ => none

/-- `i.packages[path] = pkg` — map store. -/
def cacheInsert (c : Cache) (k : String) (v : Option Pkg) : Cache :=
  fun q => if q = k then some v else c q

/-- The external collaborators used by `importer.go`, as oracles:
`mainImporter.Import`, `mainImporter.ImportFrom`, `build.Default.Import`,
`parseFiles` (declared elsewhere in the original gotype sources, absent from
`src/`; per the spec it is a pure function of directory and filenames), and
`i.config.Check` (which, like `go/types.Config.Check`, returns both a package
pointer and an error value). -/
structure ImporterEnv where
  mainImport : String → Except String Pkg
  mainImportFrom : String → String → Nat → Except String Pkg
  buildImport : String → String → Except String BuildPkg
  parseFiles : String → List String → Except String (List AstFile)
  configCheck : String → List AstFile → Option Pkg × Option String

/-- Model of Go `path.Join` restricted to the shapes used here (no `Clean`
normalisation; the claims under study do not depend on it). -/
def pathJoin (a b : String) : String :=
  if a == "" then b else if b == "" then a else a ++ "/" ++ b

/-- Result of one resolver call: the returned package pointer, the returned
error value, the cache afterwards, and the trace of collaborator invocations. -/
structure ImportFromOut where
  pkg : Option Pkg
  err : Option String
  cache : Cache
  evs : List Ev

/-- `(*Importer).ImportFrom` from `importer.go`, translated line by line:
cache lookup; `fullDir := path.Join(i.cwd, srcDir)`; the fast importer; on its
failure `build.Default.Import`, then `parseFiles`, then
`pkg, err = i.config.Check(path, fset, files, nil)` — whose error the source
never examines before `i.packages[path] = pkg; return pkg, nil`. -/
def ImportFrom (env : ImporterEnv) (cwd : String) (packages : Cache)
    (path srcDir : String) (mode : Nat) : ImportFromOut :=
  match packages path with
  | some pkg => ⟨pkg, none, packages, []⟩
  | none =>
    let fullDir := pathJoin cwd srcDir
    match env.mainImportFrom path fullDir mode with
    | .ok pkg =>
        ⟨some pkg, none, cacheInsert packages path (some pkg),
          [.fastFrom path fullDir mode]⟩
    | .error _ =>
        match env.buildImport path fullDir with
        | .error e =>
            ⟨none, some e, packages,
              [.fastFrom path fullDir mode, .buildFind path fullDir]⟩
        | .ok buildPkg =>
            let filenames := buildPkg.goFiles ++ buildPkg.cgoFiles
            match env.parseFiles buildPkg.dir filenames with
            | .error e =>
                ⟨none, some e, packages,
                  [.fastFrom path fullDir mode, .buildFind path fullDir,
                    .parseSrc buildPkg.dir filenames]⟩
            | .ok files =>
                let checked := env.configCheck path files
                ⟨checked.1, none, cacheInsert packages path checked.1,
                  [.fastFrom path fullDir mode, .buildFind path fullDir,
                    .parseSrc buildPkg.dir filenames, .typeCheck path]⟩

/-- Result of the one-argument `Import` method. -/
structure ImportOut where
  pkg : Option Pkg
  err : Option String
  cache : Cache
  evs : List Ev

/-- `(*Importer).Import` from `importer.go`: it only calls
`i.mainImporter.Import(path)` and returns its pair; the cache is neither read
nor written (it is threaded through unchanged to make that checkable). -/
def Import (env : ImporterEnv) (packages : Cache) (path : String) : ImportOut :=
  match env.mainImport path with
  | .ok pkg => ⟨some pkg, none, packages, [.fastImport path]⟩
  | .error e => ⟨none, some e, packages, [.fastImport path]⟩

/-- A sequence of `ImportFrom` calls within one run, threading the cache. -/
def runImports (env : ImporterEnv) (cwd : String) : Cache → List (String × String × Nat) → Cache
  | c, [] => c
  | c, req :: rest =>
      runImports env cwd (ImportFrom env cwd c req.1 req.2.1 req.2.2).cache rest

/-! ## Driver (`gotype2.go`) -/

/-- A diagnostic as `report` receives it: either a structured
`packages.Error` (a position string `Pos` and a message) or any other error
value (for which the type assertion `err.(packages.Error)` fails). -/
inductive Diag where
  | pkgErr (pos msg : String)
  | plainErr (msg : String)
  deriving DecidableEq, Repr

/-- The first component of `strings.Split(pos, ":")`: the text before the
first colon (the whole string when there is none, empty when `pos` is empty). -/
def takeUntilColon : List Char → List Char
  | [] => []
  | c :: cs => if c = ':' then [] else c :: takeUntilColon cs

/-- `strings.Split(pkgErr.Pos, ":")[0]` from `report`. -/
def errFilePathOf (pos : String) : String := ⟨takeUntilColon pos.data⟩

/-- Go `strings.HasSuffix`, evaluated structurally on the character lists. -/
def stringHasSuffix (s suf : String) : Bool :=
  s.data.reverse.take suf.data.length == suf.data.reverse

/-- Go `strings.HasPrefix`, evaluated structurally on the character lists. -/
def stringStartsWith (s pre : String) : Bool :=
  s.data.take pre.data.length == pre.data

/-- `report(err, pathRestriction)` from `gotype2.go`, acting on the error
counter. It returns the new counter value and whether the diagnostic was
printed (the early `return` branch yields `false`). -/
def report (err : Diag) (pathRestriction : String) (errorCount : Nat) : Nat × Bool :=
  if pathRestriction == "" then (errorCount + 1, true)
  else
    match err with
    | .pkgErr pos _ =>
        if errFilePathOf pos == pathRestriction then (errorCount + 1, true)
        else (errorCount, false)
    | .plainErr _ => (errorCount + 1, true)

/-- Splitting a character list at a separator character, keeping empty
components, as Go `strings.Split` does for single-character separators. -/
def splitOnChar (sep : Char) : List Char → List (List Char)
  | [] => [[]]
  | c :: cs =>
      let rest := splitOnChar sep cs
      if c = sep then [] :: rest
      else
        match rest with
        | [] => [[c]]
        | r :: rs => (c :: r) :: rs

/-- Model of Go `filepath.Dir` (drop the final path element; `.` for a bare
filename, `/` below the root; `Clean` simplifications beyond these are not
modelled — the claims under study do not depend on them). -/
def filepathDir (p : String) : String :=
  let parts := (splitOnChar '/' p.data).map fun l => (⟨l⟩ : String)
  let front := parts.dropLast
  if front.isEmpty then "." else
    let joined := String.intercalate "/" front
    if joined == "" then "/" else joined

/-- `getPkgFiles(args, useContext)` from `gotype2.go`. `stat` is the
`os.Stat` oracle, answering whether the path names a directory (or an I/O
error). The Go function returns `(pkgPath, targetFile, err)`; the `Except`
value collapses the error convention. Note the control flow: only the
`len(args) == 1` branch can succeed; every other shape of `args` — including
zero arguments — falls through to the single `fmt.Errorf` at the bottom. -/
def getPkgFiles (stat : String → Except String Bool) (args : List String)
    (useContext : Bool) : Except String (String × String) :=
  match args with
  | [path] =>
    match stat path with
    | .error e => .error e
    | .ok isDir =>
      if isDir then .ok (path, "")
      else if useContext then
        let dirName := filepathDir path
        let dirName := if stringStartsWith path "./" then "./" ++ dirName else dirName
        .ok (dirName, path)
      else .error "cannot specify more than one path"
  | _ => .error "cannot specify more than one path"

/-- `includeTests := *autoFiles && targetFile != "" && strings.HasSuffix(targetFile, "_test.go")`
from `checkPkgFiles` (`gotype2.go` line 195). -/
def includeTestsFor (autoFiles : Bool) (targetFile : String) : Bool :=
  autoFiles && !(targetFile == "") && stringHasSuffix targetFile "_test.go"

/-- The Driver's external collaborators: `os.Stat`, `filepath.Abs` (whose Go
implementation yields `""` alongside an error), and `packages.Load` given the
`Tests` configuration bit, the working directory and the package path —
returning either a load error or the per-root `Errors` lists. -/
structure DriverEnv where
  stat : String → Except String Bool
  abs : String → Except String String
  load : Bool → String → String → Except String (List (List Diag))

/-- `checkPkgFiles(pkgPath, targetFile)` from `gotype2.go`, acting on the
error counter. The working directory `wd` is the resolved `*workingDir` /
`os.Getwd` value. On `filepath.Abs` failure Go leaves `targetFile = ""` (the
multiple assignment) and reports with that value; on `packages.Load` failure
it reports the load error; otherwise it reports every root error in order —
always against the absolutised `targetFile`. -/
def checkPkgFiles (env : DriverEnv) (autoFiles : Bool) (wd : String)
    (pkgPath targetFile : String) (errorCount : Nat) : Nat :=
  let includeTests := includeTestsFor autoFiles targetFile
  match env.abs targetFile with
  | .error e => (report (.plainErr e) "" errorCount).1
  | .ok targetAbs =>
    match env.load includeTests wd pkgPath with
    | .error e => (report (.plainErr e) targetAbs errorCount).1
    | .ok roots =>
        roots.foldl (fun c errs => errs.foldl (fun c2 e => (report e targetAbs c2).1) c)
          errorCount

/-- `main` from `gotype2.go`, returning the final error counter and the
process exit status: a `getPkgFiles` failure is reported with no restriction
and exits 2; otherwise the run exits 2 when the counter is positive and 0
when it is zero. -/
def mainRun (env : DriverEnv) (autoFiles usePkgContext : Bool) (wd : String)
    (args : List String) : Nat × Nat :=
  match getPkgFiles env.stat args usePkgContext with
  | .error e => ((report (.plainErr e) "" 0).1, 2)
  | .ok (pkgPath, targetFile) =>
    let c := checkPkgFiles env autoFiles wd pkgPath targetFile 0
    (c, if c > 0 then 2 else 0)

/-! ## Spec-side definition for the diagnostic-scoping refinement claim -/

/-- Following the spec's words: normalisation of a path "to a canonical
absolute form" relative to the working directory (an already absolute path is
unchanged, a relative one is resolved against `wd`). -/
def filepathAbsSpec (wd p : String) : String :=
  if stringStartsWith p "/" then p else pathJoin wd p

/-- Following the spec's words for the Diagnostic Filter (section 4.2): with
a restriction set and a positioned diagnostic, admit exactly when the
position's file path equals the restriction after both are normalised to a
canonical absolute form. Stated for comparison with `report`. -/
def specAdmitNormalized (wd : String) (err : Diag) (restriction : String) : Bool :=
  if restriction == "" then true
  else
    match err with
    | .pkgErr pos _ =>
        filepathAbsSpec wd (errFilePathOf pos) == filepathAbsSpec wd restriction
    | .plainErr _ => true

/-! ## Concrete environments used by closed theorems and witnesses -/

/-- Resolver environment in which the fast path fails, discovery and parsing
succeed, and the recursive type-check reports an error. -/
def envC1 : ImporterEnv where
  mainImport := fun _ => .error "unused"
  mainImportFrom := fun _ _ _ => .error "fast importer: cannot find package"
  buildImport := fun _ _ => .ok ⟨"/go/src/badpkg", ["bad.go"], []⟩
  parseFiles := fun _ _ => .ok [⟨0⟩]
  configCheck := fun _ _ => (none, some "badpkg: type error")

/-- Resolver environment in which the fast path succeeds on every request. -/
def envFast : ImporterEnv where
  mainImport := fun _ => .ok ⟨1⟩
  mainImportFrom := fun _ _ _ => .ok ⟨1⟩
  buildImport := fun _ _ => .error "discovery unused"
  parseFiles := fun _ _ => .error "parsing unused"
  configCheck := fun _ _ => (none, none)

/-- Resolver environment in which both the fast path and source discovery
fail. -/
def envNoBuild : ImporterEnv where
  mainImport := fun _ => .error "unused"
  mainImportFrom := fun _ _ _ => .error "fast importer: cannot find package"
  buildImport := fun _ _ => .error "build: cannot find package"
  parseFiles := fun _ _ => .error "parsing unused"
  configCheck := fun _ _ => (none, none)

/-- Driver environment whose `os.Stat` oracle is never expected to be
consulted, with a trivial absolutiser and a loader finding no errors. -/
def envStdin : DriverEnv where
  stat := fun _ => .error "stat: should not be called"
  abs := fun s => .ok s
  load := fun _ _ _ => .ok []

/-! ## Claim theorems -/

/-- Claim C1 (code bug at the failing input): with the fast path failing,
discovery and parsing succeeding, and the recursive type-check of `badpkg`
failing, `ImportFrom` nevertheless returns a `nil` error — the trace shows the
type-check ran and produced an error, yet the call reports success and even
caches a `nil` package handle, contradicting "failure propagates / never
silently swallowed". -/
theorem ImportFrom_check_error_swallowed :
    (ImportFrom envC1 "/wd" emptyCache "badpkg" "cmd/app" 0).err = none ∧
    (envC1.configCheck "badpkg" [⟨0⟩]).2 = some "badpkg: type error" ∧
    (ImportFrom envC1 "/wd" emptyCache "badpkg" "cmd/app" 0).evs =
      [.fastFrom "badpkg" "/wd/cmd/app" 0, .buildFind "badpkg" "/wd/cmd/app",
        .parseSrc "/go/src/badpkg" ["bad.go"], .typeCheck "badpkg"] ∧
    (ImportFrom envC1 "/wd" emptyCache "badpkg" "cmd/app" 0).cache "badpkg" = some none ∧
    (ImportFrom envC1 "/wd" emptyCache "badpkg" "cmd/app" 0).pkg = none := by
  refine ⟨rfl, rfl, rfl, ?_, rfl⟩
  simp [ImportFrom, envC1, emptyCache, cacheInsert, pathJoin]

/-- Claim C2 (code bug at the failing input): with zero path arguments
`getPkgFiles` does not enter a standard-input mode — only the
`len(args) == 1` branch can succeed, so zero arguments fall through to the
usage error, which `main` reports unrestricted and answers with exit status 2
(counter 1, exit 2), not the claimed zero diagnostics and exit status 0. -/
theorem getPkgFiles_zero_paths_errors :
    getPkgFiles envStdin.stat [] true = .error "cannot specify more than one path" ∧
    mainRun envStdin true true "/wd" [] = (1, 2) := by
  exact ⟨rfl, rfl⟩

/-- Claim C3, counterexample: a structured package error carrying no file
position (empty `Pos`) is rejected, not admitted, once a non-empty
restriction path is set — its extracted file component is the empty string,
which fails the equality test against the restriction. -/
theorem report_no_position_counterexample :
    (report (.pkgErr "" "packages must all be in one directory") "/wd/f.go" 0).2 = false ∧
    (report (.pkgErr "" "packages must all be in one directory") "/wd/f.go" 0).1 = 0 := by
  exact ⟨rfl, rfl⟩

/-- Claim C3, amended: a diagnostic is admitted unconditionally when it is
not a structured package error (the type assertion fails), and a structured
package error with an empty position is admitted when no restriction is set;
but under a non-empty restriction path such a position-less package error is
rejected. -/
theorem report_no_position_amended :
    (∀ m r c, (report (.plainErr m) r c).2 = true) ∧
    (∀ m c, (report (.pkgErr "" m) "" c).2 = true) ∧
    (∀ m r c, r ≠ "" → (report (.pkgErr "" m) r c).2 = false) := by
  refine ⟨fun m r c => ?_, fun m c => rfl, fun m r c h => ?_⟩
  · unfold report
    split <;> rfl
  · have hr : (r == "") = false := beq_eq_false_iff_ne.mpr h
    have hr2 : (errFilePathOf "" == r) = false := by
      simpa [errFilePathOf, takeUntilColon] using beq_eq_false_iff_ne.mpr (Ne.symm h)
    simp [report, hr, hr2]

/-- Witness for the amended Claim C3 theorem at concrete inputs. -/
theorem report_no_position_amended_witness :
    (report (.plainErr "boom") "/wd/f.go" 0).2 = true ∧
    (report (.pkgErr "" "boom") "/wd/f.go" 7).2 = false :=
  ⟨report_no_position_amended.1 "boom" "/wd/f.go" 0,
    report_no_position_amended.2.2 "boom" "/wd/f.go" 7 (by decide)⟩

/-- Claim C4, counterexample: `report` compares the raw position path by
string equality against the (absolutised) restriction. A diagnostic whose
position names the restricted file by a relative path is rejected by the
code, although both paths normalise to the same canonical absolute form —
the spec-side normalising filter admits it. -/
theorem report_raw_compare_counterexample :
    (report (.pkgErr "f.go:3:1" "undeclared name: x") "/wd/f.go" 0).2 = false ∧
    specAdmitNormalized "/wd" (.pkgErr "f.go:3:1" "undeclared name: x") "/wd/f.go" = true ∧
    filepathAbsSpec "/wd" (errFilePathOf "f.go:3:1") = filepathAbsSpec "/wd" "/wd/f.go" ∧
    ("/wd/f.go" : String) ≠ "" := by
  refine ⟨rfl, by decide, by decide, by decide⟩

/-- Claim C4, amended: with a non-empty restriction path, a positioned
diagnostic is admitted exactly when the text before the first colon of its
raw position string equals the restriction by plain string comparison; only
the restriction side is absolutised (by `checkPkgFiles` via `filepath.Abs`),
the position path is compared unnormalised. -/
theorem report_restriction_amended (pos m r : String) (c : Nat) (h : r ≠ "") :
    (report (.pkgErr pos m) r c).2 = true ↔ errFilePathOf pos = r := by
  have hr : (r == "") = false := beq_eq_false_iff_ne.mpr h
  simp only [report, hr, Bool.false_eq_true, if_false]
  constructor
  · intro htrue
    by_cases hm : (errFilePathOf pos == r) = true
    · exact beq_iff_eq.mp hm
    · simp [Bool.not_eq_true] at hm
      simp [hm] at htrue
  · intro heq
    simp [heq]

/-- Witness for the amended Claim C4 theorem at concrete inputs. -/
theorem report_restriction_amended_witness :
    (report (.pkgErr "/wd/f.go:3:1" "undeclared name: x") "/wd/f.go" 0).2 = true :=
  (report_restriction_amended "/wd/f.go:3:1" "undeclared name: x" "/wd/f.go" 0
    (by decide)).mpr (by decide)

/-- A resolver call that returns a `nil` error leaves its own result cached
under the requested path (every non-error exit of `ImportFrom` passes through
the cache lookup or the `i.packages[path] = pkg` store). -/
theorem ImportFrom_ok_cache_self (env : ImporterEnv) (cwd : String) (packages : Cache)
    (path srcDir : String) (mode : Nat)
    (h : (ImportFrom env cwd packages path srcDir mode).err = none) :
    (ImportFrom env cwd packages path srcDir mode).cache path =
      some (ImportFrom env cwd packages path srcDir mode).pkg := by
  cases hc : packages path with
  | some v => simp [ImportFrom, hc]
  | none =>
    cases hf : env.mainImportFrom path (pathJoin cwd srcDir) mode with
    | ok pkg => simp [ImportFrom, hc, hf, cacheInsert]
    | error e0 =>
      cases hb : env.buildImport path (pathJoin cwd srcDir) with
      | error e => simp [ImportFrom, hc, hf, hb] at h
      | ok buildPkg =>
        cases hp : env.parseFiles buildPkg.dir (buildPkg.goFiles ++ buildPkg.cgoFiles) with
        | error e => simp [ImportFrom, hc, hf, hb, hp] at h
        | ok files => simp [ImportFrom, hc, hf, hb, hp, cacheInsert]

/-- Claim C5: once a call for `path` has returned without error, a second
`ImportFrom` for the same path — whatever its requesting directory and mode —
finds the stored handle and returns it as-is: same package pointer, `nil`
error, unchanged cache, and an empty invocation trace (neither the fast
importer nor discovery, parsing or type-checking runs again). -/
theorem ImportFrom_second_call_cached (env : ImporterEnv) (cwd : String) (packages : Cache)
    (path srcDir srcDir' : String) (mode mode' : Nat)
    (h : (ImportFrom env cwd packages path srcDir mode).err = none) :
    (ImportFrom env cwd packages path srcDir mode).cache path =
      some (ImportFrom env cwd packages path srcDir mode).pkg ∧
    ImportFrom env cwd (ImportFrom env cwd packages path srcDir mode).cache path srcDir' mode' =
      ⟨(ImportFrom env cwd packages path srcDir mode).pkg, none,
        (ImportFrom env cwd packages path srcDir mode).cache, []⟩ := by
  have hself := ImportFrom_ok_cache_self env cwd packages path srcDir mode h
  refine ⟨hself, ?_⟩
  rw [ImportFrom, hself]

/-- Witness for Claim C5: in an environment whose fast path succeeds, the
second request for `dep` is answered wholly from the cache. -/
theorem ImportFrom_second_call_cached_witness :
    ImportFrom envFast "/wd" (ImportFrom envFast "/wd" emptyCache "dep" "src" 0).cache
        "dep" "other" 1 =
      ⟨(ImportFrom envFast "/wd" emptyCache "dep" "src" 0).pkg, none,
        (ImportFrom envFast "/wd" emptyCache "dep" "src" 0).cache, []⟩ :=
  (ImportFrom_second_call_cached envFast "/wd" emptyCache "dep" "src" "other" 0 1 rfl).2

/-- One `ImportFrom` call never disturbs an existing cache binding: a hit
returns before any store, and a miss stores only under the missing key. -/
theorem ImportFrom_preserves_binding (env : ImporterEnv) (cwd : String) (packages : Cache)
    (path srcDir : String) (mode : Nat) (k : String) (v : Option Pkg)
    (h : packages k = some v) :
    (ImportFrom env cwd packages path srcDir mode).cache k = some v := by
  cases hc : packages path with
  | some p => simpa [ImportFrom, hc] using h
  | none =>
    have hk : k ≠ path := by
      intro he
      rw [he, hc] at h
      cases h
    cases hf : env.mainImportFrom path (pathJoin cwd srcDir) mode with
    | ok pkg => simpa [ImportFrom, hc, hf, cacheInsert, hk] using h
    | error e0 =>
      cases hb : env.buildImport path (pathJoin cwd srcDir) with
      | error e => simpa [ImportFrom, hc, hf, hb] using h
      | ok buildPkg =>
        cases hp : env.parseFiles buildPkg.dir (buildPkg.goFiles ++ buildPkg.cgoFiles) with
        | error e => simpa [ImportFrom, hc, hf, hb, hp] using h
        | ok files => simpa [ImportFrom, hc, hf, hb, hp, cacheInsert, hk] using h

/-- Claim C6: the Resolution Cache (a map keyed by import path, hence at most
one entry per path) never loses or changes a populated binding across any
sequence of `ImportFrom` calls within a run. -/
theorem runImports_preserves_bindings (env : ImporterEnv) (cwd : String)
    (packages : Cache) (reqs : List (String × String × Nat)) (k : String) (v : Option Pkg)
    (h : packages k = some v) :
    runImports env cwd packages reqs k = some v := by
  induction reqs generalizing packages with
  | nil => simpa [runImports] using h
  | cons r rest ih =>
    exact ih _ (ImportFrom_preserves_binding env cwd packages r.1 r.2.1 r.2.2 k v h)

/-- Witness for Claim C6: a pre-existing binding for `q` survives a run that
resolves two other paths. -/
theorem runImports_preserves_bindings_witness :
    runImports envFast "/wd" (cacheInsert emptyCache "q" (some ⟨5⟩))
      [("p", "d", 0), ("p2", "d2", 0)] "q" = some (some ⟨5⟩) :=
  runImports_preserves_bindings envFast "/wd" (cacheInsert emptyCache "q" (some ⟨5⟩))
    [("p", "d", 0), ("p2", "d2", 0)] "q" (some ⟨5⟩) (by decide)

/-- Claim C7: entering the slow path (cache miss, fast importer failed), a
discovery failure — and likewise a parse failure — is returned as the
resolver's own error, with a `nil` package and the cache exactly as before:
nothing is stored for the requested path. -/
theorem ImportFrom_slow_failure_leaves_cache (env : ImporterEnv) (cwd : String)
    (packages : Cache) (path srcDir : String) (mode : Nat)
    (hmiss : packages path = none)
    (hfast : ∃ e0, env.mainImportFrom path (pathJoin cwd srcDir) mode = .error e0) :
    (∀ e, env.buildImport path (pathJoin cwd srcDir) = .error e →
      (ImportFrom env cwd packages path srcDir mode).err = some e ∧
      (ImportFrom env cwd packages path srcDir mode).pkg = none ∧
      (ImportFrom env cwd packages path srcDir mode).cache = packages) ∧
    (∀ buildPkg e, env.buildImport path (pathJoin cwd srcDir) = .ok buildPkg →
      env.parseFiles buildPkg.dir (buildPkg.goFiles ++ buildPkg.cgoFiles) = .error e →
      (ImportFrom env cwd packages path srcDir mode).err = some e ∧
      (ImportFrom env cwd packages path srcDir mode).pkg = none ∧
      (ImportFrom env cwd packages path srcDir mode).cache = packages) := by
  obtain ⟨e0, hf⟩ := hfast
  constructor
  · intro e hb
    refine ⟨?_, ?_, ?_⟩ <;> simp [ImportFrom, hmiss, hf, hb]
  · intro buildPkg e hb hp
    refine ⟨?_, ?_, ?_⟩ <;> simp [ImportFrom, hmiss, hf, hb, hp]

/-- Witness for Claim C7: with discovery failing for `p`, the resolver
returns the discovery error and caches nothing. -/
theorem ImportFrom_slow_failure_leaves_cache_witness :
    (ImportFrom envNoBuild "/wd" emptyCache "p" "d" 0).err =
      some "build: cannot find package" ∧
    (ImportFrom envNoBuild "/wd" emptyCache "p" "d" 0).cache = emptyCache := by
  have h := (ImportFrom_slow_failure_leaves_cache envNoBuild "/wd" emptyCache "p" "d" 0
    rfl ⟨"fast importer: cannot find package", rfl⟩).1 "build: cannot find package" rfl
  exact ⟨h.1, h.2.2⟩

/-- Claim C8: the exit status is 0 exactly when the run admitted no
diagnostic and unit determination raised no usage error; `report` bumps the
counter exactly once per admitted diagnostic and not at all otherwise; and
every non-zero exit is the distinguished code 2. -/
theorem mainRun_exit_status (env : DriverEnv) (autoFiles usePkgContext : Bool)
    (wd : String) (args : List String) :
    ((mainRun env autoFiles usePkgContext wd args).2 = 0 ↔
      ((mainRun env autoFiles usePkgContext wd args).1 = 0 ∧
        ∃ r, getPkgFiles env.stat args usePkgContext = .ok r)) ∧
    (∀ d restriction c, (report d restriction c).1 =
      c + (if (report d restriction c).2 then 1 else 0)) ∧
    ((mainRun env autoFiles usePkgContext wd args).2 ≠ 0 →
      (mainRun env autoFiles usePkgContext wd args).2 = 2) := by
  refine ⟨?_, ?_, ?_⟩
  · cases hg : getPkgFiles env.stat args usePkgContext with
    | error e => simp [mainRun, hg, report]
    | ok pr => simp [mainRun, hg]
  · intro d restriction c
    unfold report
    split
    · rfl
    · cases d with
      | pkgErr pos m => dsimp only; split <;> rfl
      | plainErr m => rfl
  · cases hg : getPkgFiles env.stat args usePkgContext with
    | error e => simp [mainRun, hg]
    | ok pr =>
      simp only [mainRun, hg]
      split <;> simp

/-- Witness for Claim C8: an ambiguous two-path invocation is a usage error
and exits with the distinguished code 2. -/
theorem mainRun_exit_status_witness :
    (mainRun envStdin true true "/wd" ["a.go", "b.go"]).2 = 2 :=
  (mainRun_exit_status envStdin true true "/wd" ["a.go", "b.go"]).2.2 (by decide)

/-- Claim C9: same-package test files are included exactly when test-file
auto-inclusion is on, a restriction file is set, and that file's name ends in
the `_test.go` suffix — the condition `checkPkgFiles` feeds into the loader's
`Tests` configuration bit. -/
theorem includeTests_iff (autoFiles : Bool) (targetFile : String) :
    includeTestsFor autoFiles targetFile = true ↔
      (autoFiles = true ∧ targetFile ≠ "" ∧
        stringHasSuffix targetFile "_test.go" = true) := by
  unfold includeTestsFor
  simp [Bool.and_eq_true, Bool.not_eq_true', and_assoc]

/-- Claim C10: the one-argument `Import` method is the fast importer and
nothing more — the cache it was holding is returned untouched, its result
does not depend on the cache contents at all, the only collaborator invoked
is `mainImporter.Import`, and the returned pair is exactly that importer's
answer. -/
theorem Import_bypasses_cache (env : ImporterEnv) (packages packages' : Cache)
    (path : String) :
    (Import env packages path).cache = packages ∧
    (Import env packages path).evs = [Ev.fastImport path] ∧
    ((Import env packages path).pkg = (Import env packages' path).pkg ∧
      (Import env packages path).err = (Import env packages' path).err) ∧
    (match env.mainImport path with
      | .ok p => (Import env packages path).pkg = some p ∧
          (Import env packages path).err = none
      | .error e => (Import env packages path).pkg = none ∧
          (Import env packages path).err = some e) := by
  cases h : env.mainImport path <;> simp [Import, h]

end Gotype
